import Mathlib

/-!
Verification of the `Ch00` host of GameAnimationProgramming
(`src/Ch00/WinMain.cpp`, `src/Ch00/Application.h`).

The host is a single-threaded Win32/OpenGL shell: `WinMain` creates a
window, sets up a GL context and a global vertex array object, then runs
the game loop (peek one message, translate/dispatch it, update, render,
present); `WndProc` handles `WM_CLOSE` (shut down and delete the global
`Application`, null the pointer, `DestroyWindow`) and `WM_DESTROY`
(tear down the vertex array and GL context, `PostQuitMessage(0)`).

The embedding below models the observable state of the host — the two
globals `gApplication` and `gVertexArrayObject`, the OS message queue,
the `MSG msg` buffer of `WinMain`, and `lastTick` — together with a
trace of observable events (application calls, teardown steps,
dispatches).  Float arithmetic (`dt`, aspect ratio) is idealised as
exact rational arithmetic; `DWORD` arithmetic is `Nat` modulo `2 ^ 32`.
-/

/-- The kinds of OS message relevant to `WndProc` / the game loop.
`close` is `WM_CLOSE`, `destroy` is `WM_DESTROY`, `quit w` is `WM_QUIT`
carrying `wParam = w`, `paint`/`eraseBkgnd` are `WM_PAINT`/`WM_ERASEBKGND`,
and `other c` stands for any other message code (handled by
`DefWindowProc`). -/
inductive MsgKind where
  | close : MsgKind
  | destroy : MsgKind
  | quit : Nat → MsgKind
  | paint : MsgKind
  | eraseBkgnd : MsgKind
  | other : Nat → MsgKind
deriving DecidableEq

/-- Test `msg.message == WM_QUIT` (`WinMain.cpp:228`). -/
def MsgKind.isQuit : MsgKind → Bool
  | .quit _ => true
  | _ => false

/-- The value `(int)msg.wParam` returned from `WinMain` (line 276):
the `wParam` payload of a message (0 for messages that carry none). -/
def MsgKind.wParamOf : MsgKind → Nat
  | .quit w => w
  | _ => 0

/-- Observable events of one host execution, in program order. -/
inductive Event where
  | translated : MsgKind → Event
  | dispatched : MsgKind → Event
  | shutdown : Event
  | deleteApp : Event
  | nullApp : Event
  | destroyWindowReq : Event
  | unbindVAO : Event
  | deleteVAO : Event
  | makeCurrentNull : Event
  | deleteContext : Event
  | releaseDeviceContext : Event
  | postQuit : Event
  | diagDuplicateClose : Event
  | diagDuplicateDestroy : Event
  | update : ℚ → Event
  | render : ℚ → Event
  | present : Event
deriving DecidableEq

def Event.isShutdown : Event → Bool
  | .shutdown => true
  | _ => false

def Event.isUpdate : Event → Bool
  | .update _ => true
  | _ => false

def Event.isRender : Event → Bool
  | .render _ => true
  | _ => false

def Event.isPresent : Event → Bool
  | .present => true
  | _ => false

def Event.isDispatched : Event → Bool
  | .dispatched _ => true
  | _ => false

/-- A call into the `Application` instance (`Shutdown`, `Update`, `Render`):
the calls governed by the liveness invariant. -/
def Event.isAppCall (e : Event) : Bool :=
  e.isShutdown || e.isUpdate || e.isRender

/-- The mutable state of the host visible to `WinMain` and `WndProc`:
the global `Application*` pointer (modelled by its non-nullness), the
global VAO handle, the OS message queue, `WinMain`'s `MSG msg` buffer,
`lastTick`, and the event trace accumulated so far. -/
structure HostState where
  gApplication : Bool
  gVertexArrayObject : Nat
  queue : List MsgKind
  msgBuf : MsgKind
  lastTick : Nat
  trace : List Event
deriving DecidableEq

/-- The teardown steps of the `WM_DESTROY` handler (`WinMain.cpp:313-321`):
unbind the VAO, delete it, release the current GL context
(`wglMakeCurrent(NULL, NULL)` then `wglDeleteContext`), release the
device context, post the quit message. -/
def teardownEvents : List Event :=
  [.unbindVAO, .deleteVAO, .makeCurrentNull, .deleteContext,
   .releaseDeviceContext, .postQuit]

/-- The steps of the `WM_CLOSE` handler while the application is alive
(`WinMain.cpp:295-298`): `Shutdown`, `delete gApplication`,
`gApplication = 0`, `DestroyWindow(hwnd)`. -/
def closeEvents : List Event :=
  [.shutdown, .deleteApp, .nullApp, .destroyWindowReq]

/-- The `WM_DESTROY` case of `WndProc` (`WinMain.cpp:307-324`): if
`gVertexArrayObject != 0`, run the full teardown and
`PostQuitMessage(0)` (which appends `WM_QUIT` with payload 0 to the
queue); otherwise only print a diagnostic. -/
def handleDestroy (s : HostState) : HostState :=
  if s.gVertexArrayObject ≠ 0 then
    { s with
        gVertexArrayObject := 0,
        queue := s.queue ++ [.quit 0],
        trace := s.trace ++ teardownEvents }
  else
    { s with trace := s.trace ++ [.diagDuplicateDestroy] }

/-- The `WM_CLOSE` case of `WndProc` (`WinMain.cpp:292-301`): if
`gApplication != 0`, call `Shutdown`, delete the instance, null the
global pointer and call `DestroyWindow` — which synchronously sends
`WM_DESTROY` to `WndProc`, here inlined as `handleDestroy`.  If the
pointer is already null, only print a diagnostic. -/
def handleClose (s : HostState) : HostState :=
  if s.gApplication then
    handleDestroy
      { s with
          gApplication := false,
          trace := s.trace ++ closeEvents }
  else
    { s with trace := s.trace ++ [.diagDuplicateClose] }

/-- The window procedure `WndProc` (`WinMain.cpp:284-335`).  `WM_PAINT`
and `WM_ERASEBKGND` return 0 with no state change; everything else not
`WM_CLOSE`/`WM_DESTROY` goes to `DefWindowProc` (no modelled effect). -/
def wndProc (s : HostState) (m : MsgKind) : HostState :=
  match m with
  | .close => handleClose s
  | .destroy => handleDestroy s
  | _ => s

/-- Per-iteration environment inputs read from the OS: the
`GetTickCount()` value and the client rectangle returned by
`GetClientRect` (`WinMain.cpp:234, 242-243`). -/
structure FrameEnv where
  tick : Nat
  clientLeft : Int
  clientTop : Int
  clientRight : Int
  clientBottom : Int
deriving DecidableEq

/-- The `PeekMessage(&msg, NULL, 0, 0, PM_REMOVE)` step
(`WinMain.cpp:226-229`): non-blocking; if the queue is nonempty it
removes exactly its head into the `msg` buffer.  Returns
(state, whether a message was removed, whether the loop must `break` —
i.e. a message was removed and it is `WM_QUIT`). -/
def peekPhase (s : HostState) : HostState × Bool × Bool :=
  match s.queue with
  | [] => (s, false, false)
  | m :: rest => ({ s with queue := rest, msgBuf := m }, true, m.isQuit)

/-- The steps `TranslateMessage(&msg); DispatchMessage(&msg);`
(`WinMain.cpp:230-231`): invoked unconditionally each iteration on the
current `msg` buffer — also when no message was pending, in which case
the stale previous (or uninitialised) buffer is dispatched again. -/
def dispatchPhase (s : HostState) : HostState :=
  wndProc
    { s with trace := s.trace ++ [.translated s.msgBuf, .dispatched s.msgBuf] }
    s.msgBuf

/-- Unsigned 32-bit subtraction, the `DWORD` arithmetic of
`thisTick - lastTick`: `(a - b) mod 2 ^ 32`. -/
def dwordSub (a b : Nat) : Nat :=
  (a % 2 ^ 32 + (2 ^ 32 - b % 2 ^ 32)) % 2 ^ 32

/-- The timing/update step (`WinMain.cpp:234-237`):
`DWORD thisTick = GetTickCount(); float dt = (thisTick - lastTick) * 0.001f;
lastTick = thisTick; if (gApplication != 0) gApplication->Update(dt);`.
`0.001f` is idealised as the exact rational `1/1000`. -/
def updatePhase (tick : Nat) (s : HostState) : HostState :=
  let thisTick := tick % 2 ^ 32
  let dt : ℚ := (dwordSub thisTick s.lastTick : ℚ) * (1 / 1000)
  let s' := { s with lastTick := thisTick }
  if s'.gApplication then { s' with trace := s'.trace ++ [.update dt] } else s'

/-- The render step (`WinMain.cpp:240-259`): when the application is
alive, re-read the client rectangle, set the viewport, clear, compute
`float aspect = (float)clientWidth / (float)clientHeight` and call
`gApplication->Render(aspect)`.  Float division is idealised as exact
rational division. -/
def renderPhase (e : FrameEnv) (s : HostState) : HostState :=
  if s.gApplication then
    let w : Int := e.clientRight - e.clientLeft
    let h : Int := e.clientBottom - e.clientTop
    { s with trace := s.trace ++ [.render ((w : ℚ) / (h : ℚ))] }
  else s

/-- The present step (`WinMain.cpp:262-266`): when the application is
alive, `SwapBuffers` (and `glFinish` under vsync). -/
def presentPhase (s : HostState) : HostState :=
  if s.gApplication then { s with trace := s.trace ++ [.present] } else s

/-- One iteration of the game loop (`WinMain.cpp:222-267`).  Returns the
new state and whether the loop `break`s this iteration.  Note that the
`break` on `WM_QUIT` happens immediately after the peek, before
translate/dispatch/update/render/present. -/
def loopIter (e : FrameEnv) (s : HostState) : HostState × Bool :=
  let p := peekPhase s
  if p.2.2 then (p.1, true)
  else (presentPhase (renderPhase e (updatePhase e.tick (dispatchPhase p.1))), false)

/-- The game loop run against a finite schedule of per-iteration
environments (`WinMain.cpp:222-276`).  Returns `some ((int)msg.wParam)`
if the loop `break`s within the schedule (the value `WinMain` returns),
`none` if the schedule is exhausted first, paired with the final state. -/
def mainLoop : List FrameEnv → HostState → Option Nat × HostState
  | [], s => (none, s)
  | e :: es, s =>
      match loopIter e s with
      | (s', true) => (some s'.msgBuf.wParamOf, s')
      | (s', false) => mainLoop es s'

/-- The host state right before the game loop starts
(`WinMain.cpp:63, 207, 220-221`): `gApplication` freshly allocated,
`gVertexArrayObject` the handle produced by `glGenVertexArrays`,
`msg` uninitialised (an arbitrary `uninit` value), `lastTick` the
initial `GetTickCount()`, empty trace.  `q` is the content of the OS
message queue supplied by the environment. -/
def initState (uninit : MsgKind) (q : List MsgKind) (vao : Nat) (t0 : Nat) :
    HostState where
  gApplication := true
  gVertexArrayObject := vao
  queue := q
  msgBuf := uninit
  lastTick := t0 % 2 ^ 32
  trace := []

/-- A `RECT` as manipulated by `SetRect` / `AdjustWindowRectEx`. -/
structure Rect where
  left : Int
  top : Int
  right : Int
  bottom : Int
deriving DecidableEq

/-- Constant `int clientWidth = 800;` (`WinMain.cpp:88`). -/
def clientWidthInit : Int := 800

/-- Constant `int clientHeight = 600;` (`WinMain.cpp:89`). -/
def clientHeightInit : Int := 600

/-- The centered window rectangle computed by `SetRect`
(`WinMain.cpp:91-96`): offset by half the screen minus half the
800×600 client size (C integer division). -/
def centeredWindowRect (screenWidth screenHeight : Int) : Rect where
  left := screenWidth / 2 - clientWidthInit / 2
  top := screenHeight / 2 - clientHeightInit / 2
  right := screenWidth / 2 + clientWidthInit / 2
  bottom := screenHeight / 2 + clientHeightInit / 2

/-- The call `AdjustWindowRectEx` (`WinMain.cpp:106`), modelled abstractly: the
OS expands the client rectangle outward by the window style's border
and caption sizes `bl`/`bt`/`br`/`bb` (left, top, right, bottom). -/
def adjustWindowRectEx (r : Rect) (bl bt br bb : Int) : Rect where
  left := r.left - bl
  top := r.top - bt
  right := r.right + br
  bottom := r.bottom + bb

/-- The position/size arguments passed to `CreateWindowEx`. -/
structure CreateWindowArgs where
  x : Int
  y : Int
  width : Int
  height : Int
deriving DecidableEq

/-- The window-creation computation of `WinMain` (`WinMain.cpp:86-110`):
read the screen metrics, build the centered 800×600 rectangle, adjust
it for the style — and then call `CreateWindowEx` with position
`windowRect.left/top` but size `screenWidth, screenHeight`
(`WinMain.cpp:109`), not the adjusted rectangle's size. -/
def winMainCreateWindowArgs (screenWidth screenHeight bl bt br bb : Int) :
    CreateWindowArgs :=
  let r := adjustWindowRectEx (centeredWindowRect screenWidth screenHeight) bl bt br bb
  { x := r.left, y := r.top, width := screenWidth, height := screenHeight }

/-- The Application liveness discipline over a trace: once a `shutdown`
event occurs, no later `shutdown`/`update`/`render` event occurs.
(In particular at most one `shutdown` occurs.) -/
def noAppCallAfterShutdown : List Event → Bool
  | [] => true
  | e :: rest =>
      if e.isShutdown then rest.all (fun x => !x.isAppCall)
      else noAppCallAfterShutdown rest

/-- A message is either not `WM_QUIT` or is `WM_QUIT` with payload 0. -/
def MsgKind.quitPayloadZero : MsgKind → Bool
  | .quit w => w == 0
  | _ => true

/-- Every `WM_QUIT` message in the queue carries payload 0. -/
def quitZero (q : List MsgKind) : Bool :=
  q.all MsgKind.quitPayloadZero

/-! ### Helper lemmas -/

theorem handleDestroy_gVertexArrayObject (s : HostState) :
    (handleDestroy s).gVertexArrayObject = 0 := by
  unfold handleDestroy
  split
  · rfl
  · next h => simpa using not_ne_iff.mp h

theorem handleDestroy_gApplication (s : HostState) :
    (handleDestroy s).gApplication = s.gApplication := by
  unfold handleDestroy
  split <;> rfl

theorem handleDestroy_trace_append (s : HostState) :
    ∃ u, (handleDestroy s).trace = s.trace ++ u := by
  unfold handleDestroy
  split
  · exact ⟨teardownEvents, rfl⟩
  · exact ⟨[.diagDuplicateDestroy], rfl⟩

theorem handleClose_trace_append (s : HostState) :
    ∃ u, (handleClose s).trace = s.trace ++ u := by
  unfold handleClose
  split
  · obtain ⟨u, hu⟩ := handleDestroy_trace_append
      { s with gApplication := false, trace := s.trace ++ closeEvents }
    exact ⟨closeEvents ++ u, by simpa [List.append_assoc] using hu⟩
  · exact ⟨[.diagDuplicateClose], rfl⟩

theorem wndProc_trace_append (s : HostState) (m : MsgKind) :
    ∃ u, (wndProc s m).trace = s.trace ++ u := by
  cases m with
  | close => exact handleClose_trace_append s
  | destroy => exact handleDestroy_trace_append s
  | quit w => exact ⟨[], by simp [wndProc]⟩
  | paint => exact ⟨[], by simp [wndProc]⟩
  | eraseBkgnd => exact ⟨[], by simp [wndProc]⟩
  | other c => exact ⟨[], by simp [wndProc]⟩

theorem updatePhase_trace_append (t : Nat) (s : HostState) :
    ∃ u, (updatePhase t s).trace = s.trace ++ u := by
  by_cases h : s.gApplication = true
  · exact ⟨[.update ((dwordSub (t % 2 ^ 32) s.lastTick : ℚ) * (1 / 1000))],
      by simp [updatePhase, h]⟩
  · exact ⟨[], by simp [updatePhase, h]⟩

theorem renderPhase_trace_append (e : FrameEnv) (s : HostState) :
    ∃ u, (renderPhase e s).trace = s.trace ++ u := by
  unfold renderPhase
  split
  · exact ⟨_, rfl⟩
  · exact ⟨[], by simp⟩

theorem presentPhase_trace_append (s : HostState) :
    ∃ u, (presentPhase s).trace = s.trace ++ u := by
  unfold presentPhase
  split
  · exact ⟨_, rfl⟩
  · exact ⟨[], by simp⟩

/-- The body of one loop iteration (translate/dispatch then
update/render/present) only appends to the trace, beginning with the
translation and dispatch of the current `msg` buffer. -/
theorem bodyPhases_trace (e : FrameEnv) (s : HostState) :
    ∃ u, (presentPhase (renderPhase e (updatePhase e.tick (dispatchPhase s)))).trace
        = s.trace ++ [.translated s.msgBuf, .dispatched s.msgBuf] ++ u := by
  obtain ⟨u1, h1⟩ := wndProc_trace_append
    { s with trace := s.trace ++ [.translated s.msgBuf, .dispatched s.msgBuf] } s.msgBuf
  obtain ⟨u2, h2⟩ := updatePhase_trace_append e.tick (dispatchPhase s)
  obtain ⟨u3, h3⟩ := renderPhase_trace_append e (updatePhase e.tick (dispatchPhase s))
  obtain ⟨u4, h4⟩ := presentPhase_trace_append
    (renderPhase e (updatePhase e.tick (dispatchPhase s)))
  refine ⟨u1 ++ u2 ++ u3 ++ u4, ?_⟩
  have hd : (dispatchPhase s).trace
      = s.trace ++ [.translated s.msgBuf, .dispatched s.msgBuf] ++ u1 := by
    simpa [dispatchPhase] using h1
  rw [h4, h3, h2, hd]
  simp [List.append_assoc]

/-- Unfolding of `dwordSub` as 32-bit modular subtraction. -/
theorem dwordSub_eq (a b : Nat) :
    dwordSub a b = (2 ^ 32 + a % 2 ^ 32 - b % 2 ^ 32) % 2 ^ 32 := by
  have hp : (2 : Nat) ^ 32 = 4294967296 := by norm_num
  unfold dwordSub
  rw [hp]
  omega

/-! ### C1: close-request lifecycle -/

/-- C1: a close request processed while the Application instance is
alive calls Shutdown, deletes the instance, nulls the global pointer,
and then requests window destruction, in that order, with no further
Shutdown among the events the handler adds; a close request processed
when the instance is already destroyed only emits a diagnostic — no
second Shutdown, no second destruction, no window-destruction request,
and no other state change. -/
theorem close_request_lifecycle (s : HostState) :
    (s.gApplication = true →
      ∃ rest, (handleClose s).trace
          = s.trace ++ [.shutdown, .deleteApp, .nullApp, .destroyWindowReq] ++ rest
        ∧ rest.countP (fun e => e.isShutdown) = 0
        ∧ (handleClose s).gApplication = false)
    ∧ (s.gApplication = false →
        (handleClose s).trace = s.trace ++ [.diagDuplicateClose]
      ∧ (handleClose s).gApplication = false
      ∧ (handleClose s).gVertexArrayObject = s.gVertexArrayObject
      ∧ (handleClose s).queue = s.queue) := by
  constructor
  · intro hA
    by_cases hv : s.gVertexArrayObject ≠ 0
    · refine ⟨teardownEvents, ?_, by decide, ?_⟩
      · simp [handleClose, hA, handleDestroy, hv, closeEvents, teardownEvents]
      · simp [handleClose, hA, handleDestroy, hv]
    · refine ⟨[.diagDuplicateDestroy], ?_, by decide, ?_⟩
      · simp [handleClose, hA, handleDestroy, hv, closeEvents]
      · simp [handleClose, hA, handleDestroy, hv]
  · intro hD
    simp [handleClose, hD]

/-- Witness for `close_request_lifecycle` at a concrete alive state. -/
theorem close_request_lifecycle_witness :
    (initState (.other 0) [] 1 0).gApplication = true
    ∧ (handleClose (initState (.other 0) [] 1 0)).gApplication = false := by
  refine ⟨rfl, ?_⟩
  obtain ⟨rest, -, -, h⟩ := (close_request_lifecycle (initState (.other 0) [] 1 0)).1 rfl
  exact h

/-! ### C3: destroy-notification teardown and its idempotence -/

/-- C3: a destroy signal processed while the vertex array is still
allocated performs the full teardown (unbind and delete the vertex
array, release the current context, release the device context, post
the quit notification with payload 0) and zeroes the frame-state
handle; one processed after teardown only emits a diagnostic, posts no
second quit and re-invokes no teardown step — in particular a second
destroy after a first is always diagnostic-only. -/
theorem destroy_teardown_idempotent (s : HostState) :
    (s.gVertexArrayObject ≠ 0 →
        (handleDestroy s).gVertexArrayObject = 0
      ∧ (handleDestroy s).trace = s.trace ++ teardownEvents
      ∧ (handleDestroy s).queue = s.queue ++ [.quit 0])
    ∧ (s.gVertexArrayObject = 0 →
        (handleDestroy s).trace = s.trace ++ [.diagDuplicateDestroy]
      ∧ (handleDestroy s).queue = s.queue
      ∧ (handleDestroy s).gVertexArrayObject = 0)
    ∧ ((handleDestroy (handleDestroy s)).trace
        = (handleDestroy s).trace ++ [.diagDuplicateDestroy]
      ∧ (handleDestroy (handleDestroy s)).queue = (handleDestroy s).queue) := by
  refine ⟨?_, ?_, ?_⟩
  · intro hv
    simp [handleDestroy, hv]
  · intro hv
    simp [handleDestroy, hv]
  · have h0 := handleDestroy_gVertexArrayObject s
    generalize hgen : handleDestroy s = t at h0 ⊢
    simp [handleDestroy, h0]

/-- Witness for `destroy_teardown_idempotent` at a concrete state with
an allocated vertex array. -/
theorem destroy_teardown_idempotent_witness :
    (initState (.other 0) [] 5 0).gVertexArrayObject ≠ 0
    ∧ (handleDestroy (initState (.other 0) [] 5 0)).gVertexArrayObject = 0 := by
  refine ⟨by decide, ?_⟩
  exact ((destroy_teardown_idempotent (initState (.other 0) [] 5 0)).1 (by decide)).1

/-! ### C9: stale-buffer dispatch on an empty queue -/

/-- C9: on an iteration where no OS message is pending, the loop still
invokes translation and dispatch on the most recently stored `msg`
buffer (on a first iteration with an empty queue, the uninitialised
buffer), and the loop does not exit that iteration. -/
theorem empty_queue_stale_dispatch (e : FrameEnv) (s : HostState)
    (h : s.queue = []) :
    (∃ u, (loopIter e s).1.trace
        = s.trace ++ [.translated s.msgBuf, .dispatched s.msgBuf] ++ u)
    ∧ (loopIter e s).2 = false := by
  have hp : peekPhase s = (s, false, false) := by simp [peekPhase, h]
  constructor
  · have hb := bodyPhases_trace e s
    simpa [loopIter, hp] using hb
  · simp [loopIter, hp]

/-- Witness for `empty_queue_stale_dispatch`: first iteration with an
empty queue and uninitialised buffer. -/
theorem empty_queue_stale_dispatch_witness :
    (initState (.other 7) [] 1 0).queue = []
    ∧ (loopIter ⟨16, 0, 0, 800, 600⟩ (initState (.other 7) [] 1 0)).2 = false := by
  refine ⟨rfl, ?_⟩
  exact (empty_queue_stale_dispatch ⟨16, 0, 0, 800, 600⟩
    (initState (.other 7) [] 1 0) rfl).2

/-! ### C2: loop exit on the quit notification -/

/-- C2 counterexample: with `WM_QUIT` pending at the start of an
iteration, the loop exits with the trace still empty — the iteration
that observed the quit performed none of its processing (no
translate/dispatch, no update, no render, no present) before the loop
terminated, refuting the claim that that iteration completes its
processing. -/
theorem quit_iteration_counterexample :
    (mainLoop [⟨16, 0, 0, 800, 600⟩] (initState (.other 0) [.quit 0] 1 0)).1 = some 0
    ∧ (mainLoop [⟨16, 0, 0, 800, 600⟩]
        (initState (.other 0) [.quit 0] 1 0)).2.trace = [] := by
  decide

/-- C2 (amended): once the peek observes the quit notification, the
loop exits immediately within that same iteration: the resulting state
differs from the entry state only by the consumed queue head and the
`msg` buffer — in particular none of that iteration's
translate/dispatch/update/render/present steps run (the trace and all
other fields are unchanged). -/
theorem quit_exits_same_iteration (e : FrameEnv) (s : HostState) (w : Nat)
    (rest : List MsgKind) (h : s.queue = .quit w :: rest) :
    loopIter e s = ({ s with queue := rest, msgBuf := .quit w }, true) := by
  simp [loopIter, peekPhase, h, MsgKind.isQuit]

/-- Witness for `quit_exits_same_iteration` at a concrete state. -/
theorem quit_exits_same_iteration_witness :
    (initState (.other 0) [.quit 0] 1 0).queue = [MsgKind.quit 0]
    ∧ (loopIter ⟨16, 0, 0, 800, 600⟩ (initState (.other 0) [.quit 0] 1 0)).2
        = true := by
  refine ⟨rfl, ?_⟩
  rw [quit_exits_same_iteration ⟨16, 0, 0, 800, 600⟩
    (initState (.other 0) [.quit 0] 1 0) 0 [] rfl]

/-! ### C6: the event pump removes at most one message per iteration -/

/-- C6 counterexample: with two messages pending at the time of the
poll, one loop iteration removes and dispatches only the first — the
second is still queued afterwards and only one dispatch is recorded —
refuting "removes and dispatches each pending message (every message
pending at the time of the poll, not just the first)". -/
theorem eventPump_drain_counterexample :
    (loopIter ⟨16, 0, 0, 800, 600⟩
        (initState (.other 0) [.paint, .paint] 1 0)).1.queue = [.paint]
    ∧ ((loopIter ⟨16, 0, 0, 800, 600⟩
          (initState (.other 0) [.paint, .paint] 1 0)).1.trace.countP
        (fun e => e.isDispatched)) = 1 := by
  decide

/-- C6 (amended): each loop iteration performs one non-blocking peek at
the message queue, removing at most one pending message (the head) into
the `msg` buffer; a removed non-quit message is the one translated and
dispatched to the window procedure that iteration; with no message
pending the peek passes the state through unchanged (and returns, as a
total function, without suspending either way). -/
theorem eventPump_single_message (e : FrameEnv) (s : HostState) :
    (s.queue = [] → peekPhase s = (s, false, false))
    ∧ (∀ m rest, s.queue = m :: rest →
        (peekPhase s).1.queue = rest
        ∧ (peekPhase s).1.msgBuf = m
        ∧ (peekPhase s).2.2 = m.isQuit
        ∧ (m.isQuit = false →
            ∃ u, (loopIter e s).1.trace
              = s.trace ++ [.translated m, .dispatched m] ++ u)) := by
  constructor
  · intro h
    simp [peekPhase, h]
  · intro m rest h
    refine ⟨by simp [peekPhase, h], by simp [peekPhase, h],
      by simp [peekPhase, h], ?_⟩
    intro hq
    have hp : peekPhase s = ({ s with queue := rest, msgBuf := m }, true, m.isQuit) := by
      simp [peekPhase, h]
    have hb := bodyPhases_trace e { s with queue := rest, msgBuf := m }
    simpa [loopIter, hp, hq] using hb

/-- Witness for `eventPump_single_message`: a single pending `WM_PAINT`
is removed, leaving the queue empty. -/
theorem eventPump_single_message_witness :
    (initState (.other 0) [.paint] 1 0).queue = [MsgKind.paint]
    ∧ (peekPhase (initState (.other 0) [.paint] 1 0)).1.queue = [] := by
  refine ⟨rfl, ?_⟩
  exact ((eventPump_single_message ⟨16, 0, 0, 800, 600⟩
    (initState (.other 0) [.paint] 1 0)).2 .paint [] rfl).1

/-! ### C7: per-frame aspect passed to Render -/

/-- C7: on a frame where the application is alive, the render step
re-reads the current client rectangle from the per-frame environment
and passes `clientWidth / clientHeight` to `Render` — exactly the
real-number ratio of the rectangle's width to its height, for every
positive integer width/height pair (float division idealised as exact
rational division). -/
theorem prepareFrame_aspect (e : FrameEnv) (s : HostState)
    (halive : s.gApplication = true)
    (hw : 0 < e.clientRight - e.clientLeft)
    (hh : 0 < e.clientBottom - e.clientTop) :
    (renderPhase e s).trace
      = s.trace ++ [.render (((e.clientRight - e.clientLeft : Int) : ℚ)
            / ((e.clientBottom - e.clientTop : Int) : ℚ))]
    ∧ (((e.clientRight - e.clientLeft : Int) : ℚ)
          / ((e.clientBottom - e.clientTop : Int) : ℚ))
        * ((e.clientBottom - e.clientTop : Int) : ℚ)
      = ((e.clientRight - e.clientLeft : Int) : ℚ)
    ∧ 0 < (((e.clientRight - e.clientLeft : Int) : ℚ)
          / ((e.clientBottom - e.clientTop : Int) : ℚ)) := by
  refine ⟨?_, ?_, ?_⟩
  · simp [renderPhase, halive]
  · refine div_mul_cancel₀ _ ?_
    exact_mod_cast hh.ne'
  · refine div_pos ?_ ?_
    · exact_mod_cast hw
    · exact_mod_cast hh

/-- Witness for `prepareFrame_aspect` at an 800×600 client rectangle. -/
theorem prepareFrame_aspect_witness :
    (initState (.other 0) [] 1 0).gApplication = true
    ∧ (0 : Int) < 800 - 0
    ∧ (((800 - 0 : Int) : ℚ) / ((600 - 0 : Int) : ℚ)) * ((600 - 0 : Int) : ℚ)
        = ((800 - 0 : Int) : ℚ) := by
  refine ⟨rfl, by decide, ?_⟩
  exact (prepareFrame_aspect ⟨16, 0, 0, 800, 600⟩ (initState (.other 0) [] 1 0)
    rfl (by decide) (by decide)).2.1

/-! ### C8: delta time arithmetic -/

/-- C8: on every iteration (here: whenever Update is reached, the
application being alive), the delta time passed to `Update` is
`(currentTick − lastTick) × 0.001` with the subtraction performed
modulo `2 ^ 32` (unsigned 32-bit), `lastTick` is then set to the
current tick for the next iteration, and no further clamping is
applied — the recorded value is exactly that product. -/
theorem update_delta_time (tick : Nat) (s : HostState)
    (halive : s.gApplication = true) :
    (updatePhase tick s).lastTick = tick % 2 ^ 32
    ∧ (updatePhase tick s).trace
        = s.trace ++ [.update ((dwordSub (tick % 2 ^ 32) s.lastTick : ℚ) * (1 / 1000))]
    ∧ (dwordSub (tick % 2 ^ 32) s.lastTick : ℚ) * (1 / 1000)
        = (((2 ^ 32 + tick % 2 ^ 32 - s.lastTick % 2 ^ 32) % 2 ^ 32 : Nat) : ℚ)
            * (1 / 1000) := by
  refine ⟨?_, ?_, ?_⟩
  · simp [updatePhase, halive]
  · simp [updatePhase, halive]
  · have hp : (2 : Nat) ^ 32 = 4294967296 := by norm_num
    have hn : dwordSub (tick % 2 ^ 32) s.lastTick
        = (2 ^ 32 + tick % 2 ^ 32 - s.lastTick % 2 ^ 32) % 2 ^ 32 := by
      unfold dwordSub
      rw [hp]
      omega
    rw [hn]

/-- Witness for `update_delta_time`: tick 5000 against lastTick 1000. -/
theorem update_delta_time_witness :
    (initState (.other 0) [] 1 1000).gApplication = true
    ∧ (updatePhase 5000 (initState (.other 0) [] 1 1000)).lastTick
        = 5000 % 2 ^ 32 := by
  refine ⟨rfl, ?_⟩
  exact (update_delta_time 5000 (initState (.other 0) [] 1 1000) rfl).1

/-! ### C5: window created at full screen size, not 800×600 -/

/-- C5 (the source defect flagged in the spec): at screen 1920×1080
with `AdjustWindowRectEx` border sizes (left 8, top 31, right 8,
bottom 8), `WinMain` passes the full screen size 1920×1080 to
`CreateWindowEx` (`WinMain.cpp:109`) — not the 816×639 outer size of
the adjusted, centered 800×600 client rectangle it just computed —
while still using the adjusted rectangle's top-left corner (552, 209)
as the centered position. -/
theorem createWindow_size_bug :
    (winMainCreateWindowArgs 1920 1080 8 31 8 8).width = 1920
    ∧ (winMainCreateWindowArgs 1920 1080 8 31 8 8).height = 1080
    ∧ ((adjustWindowRectEx (centeredWindowRect 1920 1080) 8 31 8 8).right
        - (adjustWindowRectEx (centeredWindowRect 1920 1080) 8 31 8 8).left) = 816
    ∧ ((adjustWindowRectEx (centeredWindowRect 1920 1080) 8 31 8 8).bottom
        - (adjustWindowRectEx (centeredWindowRect 1920 1080) 8 31 8 8).top) = 639
    ∧ (winMainCreateWindowArgs 1920 1080 8 31 8 8).width ≠ 816
    ∧ (winMainCreateWindowArgs 1920 1080 8 31 8 8).height ≠ 639
    ∧ (winMainCreateWindowArgs 1920 1080 8 31 8 8).x = 552
    ∧ (winMainCreateWindowArgs 1920 1080 8 31 8 8).y = 209 := by
  decide

/-! ### Liveness-invariant machinery (for the whole-run claims) -/

theorem event_notShutdown_of_notAppCall (x : Event) (h : x.isAppCall = false) :
    x.isShutdown = false := by
  cases hs : x.isShutdown
  · rfl
  · simp only [Event.isAppCall, hs] at h
    simp at h

theorem notShutdown_of_notAppCall (t : List Event)
    (h : t.all (fun x => !x.isAppCall) = true) :
    t.all (fun x => !x.isShutdown) = true := by
  simp only [List.all_eq_true] at h ⊢
  intro x hx
  have hx' := h x hx
  simp only [Bool.not_eq_true'] at hx' ⊢
  exact event_notShutdown_of_notAppCall x hx'

theorem noAppCall_of_no_shutdown (t : List Event)
    (h : t.all (fun x => !x.isShutdown) = true) :
    noAppCallAfterShutdown t = true := by
  induction t with
  | nil => rfl
  | cons e rest ih =>
      simp only [List.all_cons, Bool.and_eq_true] at h
      have hne : e.isShutdown = false := by simpa using h.1
      simp only [noAppCallAfterShutdown, hne, Bool.false_eq_true, if_false]
      exact ih h.2

theorem noAppCall_append (t u : List Event)
    (ht : noAppCallAfterShutdown t = true)
    (hu : u.all (fun x => !x.isAppCall) = true) :
    noAppCallAfterShutdown (t ++ u) = true := by
  induction t with
  | nil => simpa using noAppCall_of_no_shutdown u (notShutdown_of_notAppCall u hu)
  | cons e rest ih =>
      by_cases hs : e.isShutdown = true
      · simp only [noAppCallAfterShutdown, hs, if_true] at ht
        simp only [List.cons_append, noAppCallAfterShutdown, hs, if_true,
          List.all_append]
        simp [ht, hu]
      · have hs' : e.isShutdown = false := by simpa using hs
        simp only [noAppCallAfterShutdown, hs', Bool.false_eq_true, if_false] at ht
        simp only [List.cons_append, noAppCallAfterShutdown, hs', Bool.false_eq_true,
          if_false]
        exact ih ht

theorem noAppCall_append_shutdown (t u : List Event)
    (ht : t.all (fun x => !x.isShutdown) = true)
    (hu : u.all (fun x => !x.isAppCall) = true) :
    noAppCallAfterShutdown (t ++ Event.shutdown :: u) = true := by
  induction t with
  | nil =>
      simp only [List.nil_append, noAppCallAfterShutdown, Event.isShutdown, if_true]
      exact hu
  | cons e rest ih =>
      simp only [List.all_cons, Bool.and_eq_true] at ht
      have hne : e.isShutdown = false := by simpa using ht.1
      simp only [List.cons_append, noAppCallAfterShutdown, hne, Bool.false_eq_true,
        if_false]
      exact ih ht.2

theorem count_shutdown_le_one (t : List Event)
    (h : noAppCallAfterShutdown t = true) :
    t.countP (fun x => x.isShutdown) ≤ 1 := by
  induction t with
  | nil => simp
  | cons e rest ih =>
      by_cases hs : e.isShutdown = true
      · simp only [noAppCallAfterShutdown, hs, if_true] at h
        have h0 : rest.countP (fun x => x.isShutdown) = 0 := by
          rw [List.countP_eq_zero]
          intro a ha
          have := List.all_eq_true.mp (notShutdown_of_notAppCall rest h) a ha
          simpa using this
        rw [List.countP_cons_of_pos _ _ hs, h0]
      · have hs' : e.isShutdown = false := by simpa using hs
        simp only [noAppCallAfterShutdown, hs', Bool.false_eq_true, if_false] at h
        rw [List.countP_cons_of_neg _ _ (by simp [hs'])]
        exact ih h

theorem dispatchEvents_not_appCall (m : MsgKind) :
    ([Event.translated m, Event.dispatched m] : List Event).all
      (fun x => !x.isAppCall) = true := by
  simp [Event.isAppCall, Event.isShutdown, Event.isUpdate, Event.isRender]

theorem inv_handleDestroy (s : HostState)
    (h1 : noAppCallAfterShutdown s.trace = true)
    (h2 : s.gApplication = true → s.trace.all (fun x => !x.isShutdown) = true) :
    noAppCallAfterShutdown (handleDestroy s).trace = true
    ∧ ((handleDestroy s).gApplication = true →
        (handleDestroy s).trace.all (fun x => !x.isShutdown) = true) := by
  obtain ⟨u, hu, hall⟩ : ∃ u, (handleDestroy s).trace = s.trace ++ u
      ∧ u.all (fun x => !x.isAppCall) = true := by
    unfold handleDestroy
    split
    · exact ⟨teardownEvents, rfl, by decide⟩
    · exact ⟨[.diagDuplicateDestroy], rfl, by decide⟩
  constructor
  · rw [hu]
    exact noAppCall_append _ _ h1 hall
  · intro hAl
    rw [handleDestroy_gApplication] at hAl
    rw [hu, List.all_append]
    simp [h2 hAl, notShutdown_of_notAppCall u hall]

theorem inv_handleClose (s : HostState)
    (h1 : noAppCallAfterShutdown s.trace = true)
    (h2 : s.gApplication = true → s.trace.all (fun x => !x.isShutdown) = true) :
    noAppCallAfterShutdown (handleClose s).trace = true
    ∧ ((handleClose s).gApplication = true →
        (handleClose s).trace.all (fun x => !x.isShutdown) = true) := by
  by_cases hA : s.gApplication = true
  · have h2' := h2 hA
    have hrw : handleClose s = handleDestroy
        { s with gApplication := false, trace := s.trace ++ closeEvents } := by
      simp [handleClose, hA]
    obtain ⟨u, hu, hall⟩ : ∃ u, (handleClose s).trace
        = (s.trace ++ closeEvents) ++ u ∧ u.all (fun x => !x.isAppCall) = true := by
      rw [hrw]
      unfold handleDestroy
      split
      · exact ⟨teardownEvents, rfl, by decide⟩
      · exact ⟨[.diagDuplicateDestroy], rfl, by decide⟩
    have hga : (handleClose s).gApplication = false := by
      rw [hrw, handleDestroy_gApplication]
    constructor
    · rw [hu]
      have hshape : (s.trace ++ closeEvents) ++ u
          = s.trace ++ Event.shutdown
              :: ([Event.deleteApp, Event.nullApp, Event.destroyWindowReq] ++ u) := by
        simp [closeEvents]
      rw [hshape]
      refine noAppCall_append_shutdown _ _ h2' ?_
      rw [List.all_append, hall, Bool.and_true]
      decide
    · intro hAl
      rw [hga] at hAl
      cases hAl
  · have hD : s.gApplication = false := by simpa using hA
    have hrw : handleClose s = { s with trace := s.trace ++ [.diagDuplicateClose] } := by
      simp [handleClose, hD]
    constructor
    · rw [hrw]
      exact noAppCall_append _ _ h1 (by decide)
    · intro hAl
      rw [hrw] at hAl
      simp only [] at hAl
      rw [hD] at hAl
      cases hAl

theorem inv_wndProc (s : HostState) (m : MsgKind)
    (h1 : noAppCallAfterShutdown s.trace = true)
    (h2 : s.gApplication = true → s.trace.all (fun x => !x.isShutdown) = true) :
    noAppCallAfterShutdown (wndProc s m).trace = true
    ∧ ((wndProc s m).gApplication = true →
        (wndProc s m).trace.all (fun x => !x.isShutdown) = true) := by
  cases m with
  | close => exact inv_handleClose s h1 h2
  | destroy => exact inv_handleDestroy s h1 h2
  | quit w => exact ⟨h1, h2⟩
  | paint => exact ⟨h1, h2⟩
  | eraseBkgnd => exact ⟨h1, h2⟩
  | other c => exact ⟨h1, h2⟩

theorem inv_dispatchPhase (s : HostState)
    (h1 : noAppCallAfterShutdown s.trace = true)
    (h2 : s.gApplication = true → s.trace.all (fun x => !x.isShutdown) = true) :
    noAppCallAfterShutdown (dispatchPhase s).trace = true
    ∧ ((dispatchPhase s).gApplication = true →
        (dispatchPhase s).trace.all (fun x => !x.isShutdown) = true) := by
  unfold dispatchPhase
  refine inv_wndProc _ _ ?_ ?_
  · exact noAppCall_append _ _ h1 (dispatchEvents_not_appCall s.msgBuf)
  · intro hAl
    show (s.trace ++ [Event.translated s.msgBuf, Event.dispatched s.msgBuf]).all
      (fun x => !x.isShutdown) = true
    rw [List.all_append]
    simp [h2 hAl, notShutdown_of_notAppCall _ (dispatchEvents_not_appCall s.msgBuf)]

theorem inv_updatePhase (t : Nat) (s : HostState)
    (h1 : noAppCallAfterShutdown s.trace = true)
    (h2 : s.gApplication = true → s.trace.all (fun x => !x.isShutdown) = true) :
    noAppCallAfterShutdown (updatePhase t s).trace = true
    ∧ ((updatePhase t s).gApplication = true →
        (updatePhase t s).trace.all (fun x => !x.isShutdown) = true) := by
  by_cases hA : s.gApplication = true
  · have htr : (updatePhase t s).trace = s.trace
        ++ [.update ((dwordSub (t % 2 ^ 32) s.lastTick : ℚ) * (1 / 1000))] := by
      simp [updatePhase, hA]
    have hall : (updatePhase t s).trace.all (fun x => !x.isShutdown) = true := by
      rw [htr, List.all_append, h2 hA, Bool.true_and]
      rfl
    exact ⟨by rw [htr] at hall ⊢; exact noAppCall_of_no_shutdown _ hall,
      fun _ => hall⟩
  · have hD : s.gApplication = false := by simpa using hA
    have htr : (updatePhase t s).trace = s.trace := by
      simp [updatePhase, hD]
    have hga : (updatePhase t s).gApplication = s.gApplication := by
      simp [updatePhase, hD]
    refine ⟨by rw [htr]; exact h1, fun hAl => ?_⟩
    rw [hga, hD] at hAl
    cases hAl

theorem inv_renderPhase (e : FrameEnv) (s : HostState)
    (h1 : noAppCallAfterShutdown s.trace = true)
    (h2 : s.gApplication = true → s.trace.all (fun x => !x.isShutdown) = true) :
    noAppCallAfterShutdown (renderPhase e s).trace = true
    ∧ ((renderPhase e s).gApplication = true →
        (renderPhase e s).trace.all (fun x => !x.isShutdown) = true) := by
  by_cases hA : s.gApplication = true
  · have htr : (renderPhase e s).trace = s.trace
        ++ [.render (((e.clientRight - e.clientLeft : Int) : ℚ)
              / ((e.clientBottom - e.clientTop : Int) : ℚ))] := by
      simp [renderPhase, hA]
    have hall : (renderPhase e s).trace.all (fun x => !x.isShutdown) = true := by
      rw [htr, List.all_append, h2 hA, Bool.true_and]
      rfl
    exact ⟨by rw [htr] at hall ⊢; exact noAppCall_of_no_shutdown _ hall,
      fun _ => hall⟩
  · have hD : s.gApplication = false := by simpa using hA
    have hrw : renderPhase e s = s := by
      simp [renderPhase, hD]
    rw [hrw]
    exact ⟨h1, h2⟩

theorem inv_presentPhase (s : HostState)
    (h1 : noAppCallAfterShutdown s.trace = true)
    (h2 : s.gApplication = true → s.trace.all (fun x => !x.isShutdown) = true) :
    noAppCallAfterShutdown (presentPhase s).trace = true
    ∧ ((presentPhase s).gApplication = true →
        (presentPhase s).trace.all (fun x => !x.isShutdown) = true) := by
  by_cases hA : s.gApplication = true
  · have htr : (presentPhase s).trace = s.trace ++ [.present] := by
      simp [presentPhase, hA]
    have hall : (presentPhase s).trace.all (fun x => !x.isShutdown) = true := by
      rw [htr, List.all_append, h2 hA, Bool.true_and]
      rfl
    exact ⟨by rw [htr] at hall ⊢; exact noAppCall_of_no_shutdown _ hall,
      fun _ => hall⟩
  · have hD : s.gApplication = false := by simpa using hA
    have hrw : presentPhase s = s := by
      simp [presentPhase, hD]
    rw [hrw]
    exact ⟨h1, h2⟩

theorem inv_loopIter (e : FrameEnv) (s : HostState)
    (h1 : noAppCallAfterShutdown s.trace = true)
    (h2 : s.gApplication = true → s.trace.all (fun x => !x.isShutdown) = true) :
    noAppCallAfterShutdown (loopIter e s).1.trace = true
    ∧ ((loopIter e s).1.gApplication = true →
        (loopIter e s).1.trace.all (fun x => !x.isShutdown) = true) := by
  cases hq : s.queue with
  | nil =>
      have hp : peekPhase s = (s, false, false) := by simp [peekPhase, hq]
      have hd := inv_dispatchPhase s h1 h2
      have hu := inv_updatePhase e.tick _ hd.1 hd.2
      have hr := inv_renderPhase e _ hu.1 hu.2
      have hpp := inv_presentPhase _ hr.1 hr.2
      have hrw : loopIter e s
          = (presentPhase (renderPhase e (updatePhase e.tick (dispatchPhase s))),
              false) := by
        simp [loopIter, hp]
      rw [hrw]
      exact hpp
  | cons m rest =>
      have hp : peekPhase s
          = ({ s with queue := rest, msgBuf := m }, true, m.isQuit) := by
        simp [peekPhase, hq]
      by_cases hbq : m.isQuit = true
      · have hrw : loopIter e s = ({ s with queue := rest, msgBuf := m }, true) := by
          simp [loopIter, hp, hbq]
        rw [hrw]
        exact ⟨h1, fun hAl => h2 hAl⟩
      · have hbq' : m.isQuit = false := by simpa using hbq
        have hrw : loopIter e s
            = (presentPhase (renderPhase e (updatePhase e.tick
                (dispatchPhase { s with queue := rest, msgBuf := m }))), false) := by
          simp [loopIter, hp, hbq']
        have hd := inv_dispatchPhase { s with queue := rest, msgBuf := m } h1 h2
        have hu := inv_updatePhase e.tick _ hd.1 hd.2
        have hr := inv_renderPhase e _ hu.1 hu.2
        have hpp := inv_presentPhase _ hr.1 hr.2
        rw [hrw]
        exact hpp

theorem inv_mainLoop (envs : List FrameEnv) (s : HostState)
    (h1 : noAppCallAfterShutdown s.trace = true)
    (h2 : s.gApplication = true → s.trace.all (fun x => !x.isShutdown) = true) :
    noAppCallAfterShutdown (mainLoop envs s).2.trace = true := by
  induction envs generalizing s with
  | nil => exact h1
  | cons e es ih =>
      have hit := inv_loopIter e s h1 h2
      simp only [mainLoop]
      cases hb : loopIter e s with
      | mk s' brk =>
          rw [hb] at hit
          cases brk
          · simpa using ih s' hit.1 hit.2
          · simpa using hit.1

/-! ### C4: the Application liveness invariant over whole executions -/

/-- C4: for every execution of the host — any schedule of per-iteration
OS inputs, any initial message-queue contents, any uninitialised `msg`
buffer, any VAO handle and start tick — the trace satisfies the
liveness invariant: after a `Shutdown` event no `Update`, `Render` or
further `Shutdown` event ever occurs (so in particular `Shutdown`
occurs at most once); every post-destruction call attempt is a guarded
no-op by construction (all transitions are total and append no
application call once `gApplication` is null). -/
theorem application_liveness_invariant (envs : List FrameEnv) (uninit : MsgKind)
    (q : List MsgKind) (vao t0 : Nat) :
    noAppCallAfterShutdown (mainLoop envs (initState uninit q vao t0)).2.trace = true
    ∧ (mainLoop envs (initState uninit q vao t0)).2.trace.countP
        (fun x => x.isShutdown) ≤ 1 := by
  have h := inv_mainLoop envs (initState uninit q vao t0) rfl (fun _ => rfl)
  exact ⟨h, count_shutdown_le_one _ h⟩

/-! ### Quit-payload machinery (for the exit-code claim) -/

theorem wParam_zero_of_quitPayloadZero (m : MsgKind) (hq : m.isQuit = true)
    (hz : m.quitPayloadZero = true) : m.wParamOf = 0 := by
  cases m <;> simp_all [MsgKind.isQuit, MsgKind.quitPayloadZero, MsgKind.wParamOf]

theorem quitZero_handleDestroy (s : HostState) (h : quitZero s.queue = true) :
    quitZero (handleDestroy s).queue = true := by
  unfold handleDestroy
  split
  · show quitZero (s.queue ++ [.quit 0]) = true
    unfold quitZero at h ⊢
    rw [List.all_append, h, Bool.true_and]
    decide
  · exact h

theorem quitZero_handleClose (s : HostState) (h : quitZero s.queue = true) :
    quitZero (handleClose s).queue = true := by
  unfold handleClose
  split
  · exact quitZero_handleDestroy _ h
  · exact h

theorem quitZero_wndProc (s : HostState) (m : MsgKind)
    (h : quitZero s.queue = true) :
    quitZero (wndProc s m).queue = true := by
  cases m with
  | close => exact quitZero_handleClose s h
  | destroy => exact quitZero_handleDestroy s h
  | quit w => exact h
  | paint => exact h
  | eraseBkgnd => exact h
  | other c => exact h

theorem updatePhase_queue (t : Nat) (s : HostState) :
    (updatePhase t s).queue = s.queue := by
  by_cases h : s.gApplication = true <;> simp [updatePhase, h]

theorem renderPhase_queue (e : FrameEnv) (s : HostState) :
    (renderPhase e s).queue = s.queue := by
  by_cases h : s.gApplication = true <;> simp [renderPhase, h]

theorem presentPhase_queue (s : HostState) :
    (presentPhase s).queue = s.queue := by
  by_cases h : s.gApplication = true <;> simp [presentPhase, h]

/-- All `WM_QUIT` messages ever in the queue carry payload 0, provided
that held initially: the only producer of quit messages inside the host
is `PostQuitMessage(0)` in the destroy handler. -/
theorem mainLoop_exit_code (envs : List FrameEnv) (s : HostState)
    (h : quitZero s.queue = true) :
    ∀ c, (mainLoop envs s).1 = some c → c = 0 := by
  induction envs generalizing s with
  | nil =>
      intro c hc
      simp [mainLoop] at hc
  | cons e es ih =>
      intro c hc
      simp only [mainLoop] at hc
      cases hq : s.queue with
      | nil =>
          have hp : loopIter e s
              = (presentPhase (renderPhase e (updatePhase e.tick
                  (dispatchPhase s))), false) := by
            simp [loopIter, peekPhase, hq]
          rw [hp] at hc
          refine ih _ ?_ c (by simpa using hc)
          rw [presentPhase_queue, renderPhase_queue, updatePhase_queue]
          exact quitZero_wndProc _ _ h
      | cons m rest =>
          have hall : MsgKind.quitPayloadZero m = true ∧ quitZero rest = true := by
            rw [hq] at h
            simpa [quitZero, List.all_cons] using h
          by_cases hbq : m.isQuit = true
          · have hp : loopIter e s = ({ s with queue := rest, msgBuf := m }, true) := by
              simp [loopIter, peekPhase, hq, hbq]
            rw [hp] at hc
            simp only [Option.some.injEq] at hc
            have hz := wParam_zero_of_quitPayloadZero m hbq hall.1
            omega
          · have hbq' : m.isQuit = false := by simpa using hbq
            have hp : loopIter e s
                = (presentPhase (renderPhase e (updatePhase e.tick
                    (dispatchPhase { s with queue := rest, msgBuf := m }))), false) := by
              simp [loopIter, peekPhase, hq, hbq']
            rw [hp] at hc
            refine ih _ ?_ c (by simpa using hc)
            rw [presentPhase_queue, renderPhase_queue, updatePhase_queue]
            exact quitZero_wndProc _ _ hall.2

/-! ### C10: exit code through the destroy path -/

/-- C10: the destroy handler posts its quit notification with payload 0
(`PostQuitMessage(0)`), and the main loop can only exit by observing a
quit message; hence for any run whose initial queue contains no quit
message (so every quit observed was produced by the destroy path), if
the loop exits, the value returned from the entry point — the quit
message's `wParam` — is 0. -/
theorem destroy_path_exit_code_zero (envs : List FrameEnv) (uninit : MsgKind)
    (q : List MsgKind) (vao t0 : Nat)
    (hq : q.all (fun m => !m.isQuit) = true) (c : Nat)
    (hrun : (mainLoop envs (initState uninit q vao t0)).1 = some c) :
    c = 0 := by
  have hz : quitZero q = true := by
    simp only [quitZero, List.all_eq_true]
    intro m hm
    have hm' := List.all_eq_true.mp hq m hm
    cases m <;> simp_all [MsgKind.isQuit, MsgKind.quitPayloadZero]
  exact mainLoop_exit_code envs _ hz c hrun

/-- Witness for `destroy_path_exit_code_zero`: a run that receives a
close request, tears down through the destroy path, and exits on the
posted quit — with exit code 0. -/
theorem destroy_path_exit_code_zero_witness :
    ([MsgKind.close].all (fun m => !m.isQuit) = true)
    ∧ (mainLoop [⟨16, 0, 0, 800, 600⟩, ⟨32, 0, 0, 800, 600⟩]
        (initState (.other 0) [.close] 1 0)).1 = some 0
    ∧ (0 : Nat) = 0 := by
  refine ⟨by decide, by decide, ?_⟩
  exact destroy_path_exit_code_zero [⟨16, 0, 0, 800, 600⟩, ⟨32, 0, 0, 800, 600⟩]
    (.other 0) [.close] 1 0 (by decide) 0 (by decide)
